import Mathlib

/-!
Verification of the academicmcp aggregation core against its specification.

The Python sources under `src/academix` and `src/academic_mcp` are shallowly
embedded below: pure functions become Lean functions, stateful code threads an
explicit cache state, HTTP calls are abstracted as environment-supplied
outcomes (`Except`), and Python `str` is modelled by `String` restricted to the
code points Lean can represent.  Python truthiness of optional values is made
explicit (`optStrTruthy`, `optIntTruthy`).  TTL expiration and LRU eviction of
the caches are not modelled: every stored entry is treated as unexpired, which
is the hypothesis under which the cache claims are stated.
-/

/-! ## Python string primitives (ASCII semantics) -/

/-- Boolean list-prefix test, `isPrefixB sub l` is true when `sub` is a prefix of `l`. -/
def isPrefixB : List Char → List Char → Bool
  | [], _ => true
  | _ :: _, [] => false
  | a :: as, b :: bs => a == b && isPrefixB as bs

/-- Boolean substring test on character lists (Python `sub in s`). -/
def hasSub (sub : List Char) : List Char → Bool
  | [] => isPrefixB sub []
  | c :: t => isPrefixB sub (c :: t) || hasSub sub t

/-- Python `sub in s`. -/
def pyIn (sub s : String) : Bool := hasSub sub.data s.data

/-- Python `s.startswith(p)`. -/
def pyStartsWith (p s : String) : Bool := isPrefixB p.data s.data

/-- Python `s.endswith(p)`. -/
def pyEndsWith (p s : String) : Bool := isPrefixB p.data.reverse s.data.reverse

/-- Python `s.strip()`: remove leading and trailing whitespace. -/
def pyStrip (s : String) : String :=
  String.mk (((s.data.dropWhile Char.isWhitespace).reverse.dropWhile Char.isWhitespace).reverse)

/-- Python `s.lower()` (ASCII fragment: `Char.toLower` lowers only `A`-`Z`). -/
def pyLower (s : String) : String := String.mk (s.data.map Char.toLower)

/-- Python `"sep".join(parts)`. -/
def pyJoin (sep : String) : List String → String
  | [] => ""
  | [x] => x
  | x :: y :: xs => x ++ sep ++ pyJoin sep (y :: xs)

/-- Split a character list at every character satisfying `p`, keeping empty pieces. -/
def splitKeep (p : Char → Bool) : List Char → List (List Char)
  | [] => [[]]
  | c :: t =>
    let rest := splitKeep p t
    if p c then [] :: rest
    else
      match rest with
      | [] => [[c]]
      | piece :: more => (c :: piece) :: more

/-- Python `s.split()` — split on whitespace runs, dropping empty pieces. -/
def pySplitWs (s : String) : List String :=
  ((splitKeep Char.isWhitespace s.data).filter (· ≠ [])).map String.mk

/-- Python `s.split(",")` — split on commas, keeping empty pieces. -/
def pySplitComma (s : String) : List String :=
  (splitKeep (· == ',') s.data).map String.mk

/-- Drop the first `n` characters (Python `s[n:]`). -/
def dropChars (n : Nat) (s : String) : String := String.mk (s.data.drop n)

/-- Take the first `n` characters (Python `s[:n]`). -/
def takeChars (n : Nat) (s : String) : String := String.mk (s.data.take n)

/-- Drop the final character (Python `s[:-1]`). -/
def dropLastChar (s : String) : String := String.mk s.data.dropLast

/-- The character-list length of a string (Python `len(s)` counts code points). -/
def pyLen (s : String) : Nat := s.data.length

/-- Python truthiness of `Optional[str]`: `None` and the empty string are falsy. -/
def optStrTruthy : Option String → Bool
  | none => false
  | some s => s ≠ ""

/-- Python truthiness of `Optional[int]`: `None` and `0` are falsy. -/
def optIntTruthy : Option Int → Bool
  | none => false
  | some n => n ≠ 0

/-- Python `a or b` on optional strings: `a` when truthy, else `b`. -/
def pyOrStr (a b : Option String) : Option String :=
  if optStrTruthy a then a else b

/-! ## Cache key derivation (`src/academix/cache.py`)

`APICache._make_key` joins the prefix and positional arguments with a vertical
bar, appends `k=v` for the named arguments sorted as Python `sorted` sorts
`dict.items()` (lexicographically on the key, then the value), and feeds the
joined string to `hashlib.md5(...).hexdigest()`.  The embedding keeps the
joined string explicit and abstracts the digest as an arbitrary function
`hash : String → String`, since every theorem below depends only on the digest
being a function of the joined string. -/

/-- Boolean lexicographic strict order on character lists (Python string `<`
compares code points lexicographically). -/
def lexLt : List Char → List Char → Bool
  | [], [] => false
  | [], _ :: _ => true
  | _ :: _, [] => false
  | a :: as, b :: bs => a.toNat < b.toNat || (a == b && lexLt as bs)

/-- Boolean `<` on strings via their character lists. -/
def strLtB (a b : String) : Bool := lexLt a.data b.data

/-- Ordering used by Python `sorted` on `dict.items()`: lexicographic on the
pair, which for distinct keys is lexicographic on the key. -/
def pairLe (a b : String × String) : Bool :=
  strLtB a.1 b.1 || (a.1 == b.1 && (a.2 == b.2 || strLtB a.2 b.2))

/-- Insert into a list sorted by `pairLe` (insertion sort step). -/
def insertPair (x : String × String) : List (String × String) → List (String × String)
  | [] => [x]
  | y :: ys => if pairLe x y then x :: y :: ys else y :: insertPair x ys

/-- Sort named arguments the way Python `sorted(kwargs.items())` does. -/
def sortPairs (l : List (String × String)) : List (String × String) :=
  l.foldr insertPair []

/-- The joined key string of `APICache._make_key` before hashing:
`"|".join([prefix, *args, *(f"k=v" for sorted kwargs)])`. -/
def makeKeyString (pre : String) (args : List String) (kwargs : List (String × String)) : String :=
  pyJoin "|" (pre :: (args ++ (sortPairs kwargs).map (fun kv => kv.1 ++ "=" ++ kv.2)))

/-- The joined key string of `SearchCache.search_key`: prefix `search:<source>`,
the query lowercased and stripped, then `limit`, `offset` and the remaining
filters as named arguments. -/
def searchKeyString (source query : String) (limit offset : Nat)
    (filters : List (String × String)) : String :=
  makeKeyString ("search:" ++ source) [pyStrip (pyLower query)]
    ([("limit", toString limit), ("offset", toString offset)] ++ filters)

/-- The joined key string of `BibTeXCache.bibtex_key`. -/
def bibtexKeyString (paperId : String) : String := makeKeyString "bibtex" [paperId] []

/-! ## DBLP query construction (`DBLPClient.search`, `src/academix/clients/dblp.py` lines 158-171)

The year filter term `year:FROM:TO` (with `*` for an absent bound) is appended
to the query, and then, when a venue is given, the query sent to DBLP is rebuilt
from the original `query` — not from the year-augmented string. -/

/-- The `year:FROM:TO` term, with an asterisk standing for an absent or falsy bound. -/
def dblpYearFilter (yearFrom yearTo : Option Int) : String :=
  "year:" ++ (if optIntTruthy yearFrom then toString (yearFrom.getD 0) else "*")
    ++ ":" ++ (if optIntTruthy yearTo then toString (yearTo.getD 0) else "*")

/-- The query string `DBLPClient.search` sends to DBLP as parameter `q`. -/
def dblpBuildQuery (query : String) (yearFrom yearTo : Option Int)
    (venue : Option String) : String :=
  let searchQuery := query
  let searchQuery :=
    if optIntTruthy yearFrom || optIntTruthy yearTo then
      query ++ " " ++ dblpYearFilter yearFrom yearTo
    else searchQuery
  let searchQuery :=
    if optStrTruthy venue then query ++ " venue:" ++ venue.getD "" else searchQuery
  searchQuery

/-! ## Data model (`src/academix/models.py`)

`Paper` and `Author` are pydantic models with `str_strip_whitespace=True`, a
`doi` normalizing validator and range validation on `year` and
`citation_count`; construction can fail with a `ValidationError`, which the
adapters catch and turn into a skipped record.  `mkPaper` performs that ingress
normalization and returns `none` exactly when pydantic would raise. -/

/-- Source API for paper data (`PaperSource`). -/
inductive PaperSource where
  | openalex | dblp | semantic_scholar | arxiv | crossref
deriving DecidableEq, Repr

/-- Author information (whitespace already stripped on ingress). -/
structure Author where
  name : String
  author_id : Option String := none
deriving DecidableEq, Repr

/-- Academic paper metadata, after pydantic ingress normalization. -/
structure Paper where
  id : String
  title : String
  authors : List Author := []
  abstract : Option String := none
  year : Option Int := none
  published_date : Option String := none
  venue : Option String := none
  volume : Option String := none
  issue : Option String := none
  pages : Option String := none
  doi : Option String := none
  arxiv_id : Option String := none
  url : Option String := none
  pdf_url : Option String := none
  citation_count : Int := 0
  source : PaperSource
  bibtex_key : Option String := none
deriving DecidableEq, Repr

/-- The `normalize_doi` field validator: strip, then remove the DOI URL
schemes and the `doi:` prefix (case-insensitively, in that order). -/
def normalizeDoi (v : String) : String :=
  let v := pyStrip v
  let v := if pyStartsWith "https://doi.org/" (pyLower v) then dropChars 16 v else v
  let v := if pyStartsWith "http://doi.org/" (pyLower v) then dropChars 15 v else v
  let v := if pyStartsWith "doi:" (pyLower v) then dropChars 4 v else v
  v

/-- Pydantic construction of a `Paper` from raw field values: strips the string
fields, normalizes `doi`, and fails (returns `none`, a `ValidationError`) when
`year` is outside `[1900, 2100]` or `citation_count` is negative. -/
def mkPaper (p : Paper) : Option Paper :=
  if (match p.year with | some y => decide (1900 ≤ y ∧ y ≤ 2100) | none => true)
      && decide (0 ≤ p.citation_count) then
    some { p with
      id := pyStrip p.id
      title := pyStrip p.title
      authors := p.authors.map (fun a => { a with name := pyStrip a.name })
      abstract := p.abstract.map pyStrip
      venue := p.venue.map pyStrip
      volume := p.volume.map pyStrip
      issue := p.issue.map pyStrip
      pages := p.pages.map pyStrip
      doi := p.doi.map (fun d => normalizeDoi (pyStrip d))
      arxiv_id := p.arxiv_id.map pyStrip
      url := p.url.map pyStrip
      pdf_url := p.pdf_url.map pyStrip
      bibtex_key := p.bibtex_key.map pyStrip }
  else none

/-- Search results container (`SearchResult`). -/
structure SearchResult where
  total_results : Nat
  returned_count : Nat
  offset : Nat
  has_more : Bool
  papers : List Paper
  query : String
  source : PaperSource
deriving DecidableEq, Repr

/-! ## BibTeX synthesizer (`src/academix/bibtex.py`) -/

/-- The `LATEX_ESCAPES` substitution table. -/
def latexEscape (c : Char) : Option String :=
  match c with
  | 'ä' => some "\x7b\\\"a\x7d"
  | 'ö' => some "\x7b\\\"o\x7d"
  | 'ü' => some "\x7b\\\"u\x7d"
  | 'Ä' => some "\x7b\\\"A\x7d"
  | 'Ö' => some "\x7b\\\"O\x7d"
  | 'Ü' => some "\x7b\\\"U\x7d"
  | 'ß' => some "\x7b\\ss\x7d"
  | 'é' => some "\x7b\\\x27e\x7d"
  | 'è' => some "\x7b\\`e\x7d"
  | 'ê' => some "\x7b\\^e\x7d"
  | 'ë' => some "\x7b\\\"e\x7d"
  | 'á' => some "\x7b\\\x27a\x7d"
  | 'à' => some "\x7b\\`a\x7d"
  | 'â' => some "\x7b\\^a\x7d"
  | 'ã' => some "\x7b\\~a\x7d"
  | 'ó' => some "\x7b\\\x27o\x7d"
  | 'ò' => some "\x7b\\`o\x7d"
  | 'ô' => some "\x7b\\^o\x7d"
  | 'õ' => some "\x7b\\~o\x7d"
  | 'ú' => some "\x7b\\\x27u\x7d"
  | 'ù' => some "\x7b\\`u\x7d"
  | 'û' => some "\x7b\\^u\x7d"
  | 'í' => some "\x7b\\\x27i\x7d"
  | 'ì' => some "\x7b\\`i\x7d"
  | 'î' => some "\x7b\\^i\x7d"
  | 'ï' => some "\x7b\\\"i\x7d"
  | 'ñ' => some "\x7b\\~n\x7d"
  | 'ç' => some "\x7b\\c\x7bc\x7d\x7d"
  | 'Ç' => some "\x7b\\c\x7bC\x7d\x7d"
  | 'ø' => some "\x7b\\o\x7d"
  | 'Ø' => some "\x7b\\O\x7d"
  | 'å' => some "\x7b\\aa\x7d"
  | 'Å' => some "\x7b\\AA\x7d"
  | 'æ' => some "\x7b\\ae\x7d"
  | 'Æ' => some "\x7b\\AE\x7d"
  | 'œ' => some "\x7b\\oe\x7d"
  | 'Œ' => some "\x7b\\OE\x7d"
  | '&' => some "\\&"
  | '%' => some "\\%"
  | '$' => some "\\$"
  | '#' => some "\\#"
  | '_' => some "\\_"
  | '{' => some "\\\x7b"
  | '}' => some "\\\x7d"
  | '~' => some "\x7b\\textasciitilde\x7d"
  | '^' => some "\x7b\\textasciicircum\x7d"
  | _ => none

/-- Embeds `escape_latex`: per-character substitution through `LATEX_ESCAPES`. -/
def escapeLatex (s : String) : String :=
  String.join (s.data.map (fun c =>
    match latexEscape c with
    | some t => t
    | none => String.mk [c]))

/-- Unicode NFKD canonical decomposition (`unicodedata.normalize("NFKD", s)`).
NFKD is the identity on the ASCII strings this embedding ranges over; the full
Unicode decomposition tables are outside the model. -/
def nfkd (s : String) : String := s

/-- Keep only alphanumeric characters (`"".join(c for c in s if c.isalnum())`,
ASCII fragment of `str.isalnum`). -/
def filterAlnum (s : String) : String := String.mk (s.data.filter Char.isAlphanum)

/-- Python `s.capitalize()`: first character uppercased, the rest lowercased. -/
def pyCapitalize (s : String) : String :=
  match s.data with
  | [] => ""
  | c :: cs => String.mk (c.toUpper :: cs.map Char.toLower)

/-- ASCII-letter test for the `[a-zA-Z]+` word regex. -/
def isAsciiLetter (c : Char) : Bool :=
  ('a' ≤ c && c ≤ 'z') || ('A' ≤ c && c ≤ 'Z')

/-- Python `re.findall` with the letters-word pattern: the maximal runs of ASCII letters. -/
def lettersRuns (s : String) : List String :=
  ((splitKeep (fun c => !isAsciiLetter c) s.data).filter (· ≠ [])).map String.mk

/-- The stop words filtered from the title in `generate_bibtex_key`. -/
def stopWords : List String := ["a", "an", "the", "on", "in", "of", "for", "to", "and", "with"]

/-- Embeds `generate_bibtex_key`: `CapitalizedLastName + Year + FirstSignificantTitleWord`. -/
def generateBibtexKey (p : Paper) : String :=
  let parts : List String :=
    match p.authors with
    | [] => ["Unknown"]
    | a :: _ =>
      let firstAuthor := a.name
      let lastName :=
        if pyIn "," firstAuthor then pyStrip ((pySplitComma firstAuthor).headD "")
        else
          match pySplitWs firstAuthor with
          | [] => "Unknown"
          | ps => ps.getLastD "Unknown"
      [pyCapitalize (filterAlnum (nfkd lastName))]
  let parts :=
    if optIntTruthy p.year then parts ++ [toString (p.year.getD 0)] else parts
  let parts :=
    if p.title ≠ "" then
      match (lettersRuns p.title).find? (fun w => !stopWords.contains (pyLower w)) with
      | some w => parts ++ [pyCapitalize (filterAlnum (nfkd w))]
      | none => parts
    else parts
  if parts = [] then "unknown" else String.join parts

/-- Embeds `format_authors_bibtex`: rewrite `First Last` as `Last, First`, keep
already-comma-formatted names, join with the literal `and` separator. -/
def formatAuthorsBibtex (authors : List Author) : String :=
  match authors with
  | [] => ""
  | _ =>
    pyJoin " and " (authors.map (fun a =>
      let name := pyStrip a.name
      if pyIn "," name then escapeLatex name
      else
        match pySplitWs name with
        | [] => escapeLatex name
        | [single] => escapeLatex single
        | ps => escapeLatex (ps.getLastD "") ++ ", " ++ escapeLatex (pyJoin " " ps.dropLast)))

/-- Conference keywords of `determine_entry_type`. -/
def conferenceKeywords : List String :=
  ["conference", "proceedings", "workshop", "symposium", "icml", "neurips", "iclr",
   "cvpr", "iccv", "eccv", "acl", "emnlp", "naacl", "aaai", "ijcai", "sigchi",
   "sigmod", "vldb", "icse", "fse", "issta", "pldi"]

/-- Journal keywords of `determine_entry_type`. -/
def journalKeywords : List String :=
  ["journal", "transactions", "review", "letters", "nature", "science", "cell",
   "lancet", "nejm", "ieee", "acm", "springer", "elsevier"]

/-- Embeds `determine_entry_type`: arXiv beats conference beats journal beats the
volume-and-pages default. -/
def determineEntryType (p : Paper) : String :=
  let venueLower := pyLower (p.venue.getD "")
  if optStrTruthy p.arxiv_id || pyIn "arxiv" venueLower then "misc"
  else if conferenceKeywords.any (fun k => pyIn k venueLower) then "inproceedings"
  else if journalKeywords.any (fun k => pyIn k venueLower) then "article"
  else if optStrTruthy p.volume && optStrTruthy p.pages then "article"
  else "misc"

/-- Emit a run of `n` hyphens, collapsed to two when the run has length three
or more. -/
def emitDashes (n : Nat) : List Char :=
  if n ≥ 3 then ['-', '-'] else List.replicate n '-'

/-- Worker for `collapseDashRuns`: `n` counts the pending hyphen run. -/
def collapseAux (n : Nat) : List Char → List Char
  | [] => emitDashes n
  | c :: t => if c == '-' then collapseAux (n + 1) t else emitDashes n ++ c :: collapseAux 0 t

/-- Collapse every run of three or more hyphens to a double dash
(`re.sub(r"-\x7b3,\x7d", "--", s)`). -/
def collapseDashRuns (l : List Char) : List Char := collapseAux 0 l

/-- Page-range normalization in `generate_bibtex`: en dash to `--`, every
hyphen doubled, then runs of three or more collapsed back to `--`. -/
def normalizePages (s : String) : String :=
  String.mk (collapseDashRuns (((s.replace "–" "--").replace "-" "--").data))

/-- Strip the trailing comma of the final line (`if lines[-1].endswith(",")`). -/
def stripLastComma : List String → List String
  | [] => []
  | [x] => [if pyEndsWith "," x then dropLastChar x else x]
  | x :: y :: xs => x :: stripLastComma (y :: xs)

/-- Embeds `generate_bibtex`: full entry assembly with an optional custom key. -/
def generateBibtexWith (p : Paper) (customKey : Option String) : String :=
  let entryType := determineEntryType p
  let key := (pyOrStr (pyOrStr customKey p.bibtex_key) (some (generateBibtexKey p))).getD ""
  let lines : List String := ["@" ++ entryType ++ "\x7b" ++ key ++ ","]
  let lines := lines ++
    (if p.authors ≠ [] then ["  author = \x7b" ++ formatAuthorsBibtex p.authors ++ "\x7d,"]
     else [])
  let lines := lines ++
    (if p.title ≠ "" then ["  title = \x7b" ++ escapeLatex p.title ++ "\x7d,"] else [])
  let lines := lines ++
    (if entryType = "article" then
      (if optStrTruthy p.venue then
        ["  journal = \x7b" ++ escapeLatex (p.venue.getD "") ++ "\x7d,"] else [])
     else if entryType = "inproceedings" && optStrTruthy p.venue then
      ["  booktitle = \x7b" ++ escapeLatex (p.venue.getD "") ++ "\x7d,"]
     else [])
  let lines := lines ++
    (if optIntTruthy p.year then ["  year = \x7b" ++ toString (p.year.getD 0) ++ "\x7d,"]
     else [])
  let lines := lines ++
    (if optStrTruthy p.volume then ["  volume = \x7b" ++ p.volume.getD "" ++ "\x7d,"] else [])
  let lines := lines ++
    (if optStrTruthy p.issue then ["  number = \x7b" ++ p.issue.getD "" ++ "\x7d,"] else [])
  let lines := lines ++
    (if optStrTruthy p.pages then
      ["  pages = \x7b" ++ normalizePages (p.pages.getD "") ++ "\x7d,"] else [])
  let lines := lines ++
    (if optStrTruthy p.doi then ["  doi = \x7b" ++ p.doi.getD "" ++ "\x7d,"] else [])
  let lines := lines ++
    (if optStrTruthy p.arxiv_id then
      ["  eprint = \x7b" ++ p.arxiv_id.getD "" ++ "\x7d,", "  archiveprefix = \x7barXiv\x7d,"]
     else [])
  let lines := lines ++
    (if optStrTruthy p.url then ["  url = \x7b" ++ p.url.getD "" ++ "\x7d,"] else [])
  let lines := lines ++
    (if optStrTruthy p.abstract then
      let a := p.abstract.getD ""
      let a := if pyLen a > 1000 then takeChars 997 a ++ "..." else a
      ["  abstract = \x7b" ++ escapeLatex a ++ "\x7d,"]
     else [])
  let lines := stripLastComma lines ++ ["\x7d"]
  pyJoin "\n" lines

/-- Embeds `generate_bibtex(paper)` with no custom key. -/
def generateBibtex (p : Paper) : String := generateBibtexWith p none

/-- The natural key a paper contributes to the batch loop:
`paper.bibtex_key or generate_bibtex_key(paper)`. -/
def naturalKey (p : Paper) : String :=
  (pyOrStr p.bibtex_key (some (generateBibtexKey p))).getD ""

/-- Python `chr(ord("a") + k)` as an optional character: `none` models both the
surrogate code points a Lean `Char` cannot carry and the `ValueError` Python
raises past `0x10FFFF`. -/
def suffixChar (k : Nat) : Option Char :=
  if h : (97 + k).isValidChar then some ⟨⟨97 + k, by
    rcases h with h | h
    · exact Nat.lt_trans h (by norm_num)
    · exact Nat.lt_trans h.2 (by norm_num)⟩, h⟩
  else none

/-- Candidate key number `k` for an original key: the key itself for `k = 0`,
then the key with `a`, `b`, `c`, … appended. -/
def candidateKey (orig : String) : Nat → Option String
  | 0 => some orig
  | k + 1 => (suffixChar k).map (fun c => orig ++ String.mk [c])

/-- The `while key in used_keys` loop of `generate_bibtex_batch`: the first
candidate not yet used, trying at most `fuel` suffixes. -/
def freshKey (used : List String) (orig : String) : Nat → Option String
  | 0 => none
  | fuel + 1 =>
    match candidateKey orig ((used.length + 1) - (fuel + 1)) with
    | none => none
    | some cand => if used.contains cand then freshKey used orig fuel else some cand

/-- The per-paper loop of `generate_bibtex_batch`: `used` is the set of keys
assigned so far; each paper gets the first fresh candidate for its natural
key. -/
def assignKeysGo (used : List String) : List Paper → Option (List String)
  | [] => some []
  | p :: ps =>
    match freshKey used (naturalKey p) (used.length + 1) with
    | none => none
    | some k => (assignKeysGo (used ++ [k]) ps).map (fun ks => k :: ks)

/-- The citation keys `generate_bibtex_batch` assigns, in paper order.
`none` models the unreachable exhaustion of candidate suffixes. -/
def batchAssignKeys (papers : List Paper) : Option (List String) :=
  assignKeysGo [] papers

/-- Embeds `generate_bibtex_batch`: entries with the assigned keys, separated by a
blank line. -/
def generateBibtexBatch (papers : List Paper) : Option String :=
  (batchAssignKeys papers).map (fun ks =>
    pyJoin "\n\n" ((papers.zip ks).map (fun pk => generateBibtexWith pk.1 (some pk.2))))

/-! ## Cache state (`APICache`, `src/academix/cache.py`)

The global BibTeX cache is modelled as an association list from hashed key
strings to stored values; a stored value is a Python object that here is
either a string or `None` (`Option String`).  `get` counts a hit whenever the
key is present — even when the stored value is `None` — and a miss otherwise.
TTL expiration and LRU eviction are not modelled: entries are unexpired. -/

/-- Cache state: entries plus the hit and miss counters. -/
structure Cache where
  entries : List (String × Option String)
  hits : Nat
  misses : Nat

/-- A freshly constructed cache. -/
def emptyCache : Cache := ⟨[], 0, 0⟩

/-- Raw presence lookup: `some v` when the key is stored with value `v`. -/
def cacheLookup (c : Cache) (k : String) : Option (Option String) :=
  (c.entries.find? (fun e => e.1 == k)).map (fun e => e.2)

/-- Embeds `APICache.get`: the stored value and a hit on presence, `None` and a miss
on absence.  A stored `None` is returned as `none` — the same value a miss
returns. -/
def cacheGet (c : Cache) (k : String) : Option String × Cache :=
  match cacheLookup c k with
  | some v => (v, { c with hits := c.hits + 1 })
  | none => (none, { c with misses := c.misses + 1 })

/-- Overwrite-or-append on the entry list (Python dict assignment keeps the
first-insertion position of an existing key). -/
def setEntries : List (String × Option String) → String → Option String →
    List (String × Option String)
  | [], k, v => [(k, v)]
  | (k1, v1) :: rest, k, v =>
    if k1 == k then (k1, v) :: rest else (k1, v1) :: setEntries rest k v

/-- Embeds `APICache.set`. -/
def cacheSet (c : Cache) (k : String) (v : Option String) : Cache :=
  { c with entries := setEntries c.entries k v }

/-! ## Aggregator BibTeX retrieval (`AcademicAggregator.get_bibtex`,
`DBLPClient.get_bibtex`)

External HTTP interactions are abstracted into an environment: the outcome of
`GET https://dblp.org/rec/\x7bkey\x7d.bib` (status and body, or a raised
transport error), the first hit of the DBLP search used as fallback inside
`DBLPClient.get_bibtex`, and the outcome of the normal paper lookup
`AcademicAggregator.get_paper` (whose own multi-client internals the BibTeX
claims do not constrain).  The md5 digest is an abstract function of the
joined key string. -/

/-- Environment of externally determined outcomes for a BibTeX retrieval. -/
structure AggEnv where
  hash : String → String
  dblpRecBib : String → Except String (Nat × String)
  dblpSearchFirstId : String → Except String (Option String)
  paperFor : String → Option Paper

/-- Result of the embedded `DBLPClient.get_bibtex`. -/
structure DblpBibResult where
  result : Option String
  cache : Cache

/-- Embeds `DBLPClient.get_bibtex`: consult the shared BibTeX cache under
`bibtex|dblp:<id>`, then — when the id contains a slash — try the direct
`.bib` fetch, accepting a stripped 200 body that is nonempty and starts with
`@` or contains `author =`; otherwise search DBLP and fetch the first hit
against `.bib`, accepting a stripped 200 body starting with `@`. -/
def dblpGetBibtex (env : AggEnv) (pid : String) (c : Cache) : DblpBibResult :=
  let key := env.hash (bibtexKeyString ("dblp:" ++ pid))
  let got := cacheGet c key
  if optStrTruthy got.1 then ⟨got.1, got.2⟩
  else
    let c := got.2
    let direct : Option String :=
      if pyIn "/" pid then
        match env.dblpRecBib pid with
        | .ok (status, text) =>
          if status == 200 then
            let b := pyStrip text
            if b ≠ "" && (pyStartsWith "@" b || pyIn "author =" b) then some b else none
          else none
        | .error _ => none
      else none
    match direct with
    | some b => ⟨some b, cacheSet c key (some b)⟩
    | none =>
      match env.dblpSearchFirstId pid with
      | .error _ => ⟨none, c⟩
      | .ok none => ⟨none, c⟩
      | .ok (some dkey) =>
        if dkey ≠ "" then
          match env.dblpRecBib dkey with
          | .error _ => ⟨none, c⟩
          | .ok (status, text) =>
            if status == 200 then
              let b := pyStrip text
              if b ≠ "" && pyStartsWith "@" b then ⟨some b, cacheSet c key (some b)⟩
              else ⟨none, c⟩
            else ⟨none, c⟩
        else ⟨none, c⟩

/-- Result of the embedded `AcademicAggregator.get_bibtex`, with observation
flags recording whether `DBLPClient.get_bibtex` was called and whether the
synthesizer `generate_bibtex` was invoked. -/
structure AggBibResult where
  result : Option String
  cache : Cache
  dblpConsulted : Bool
  synthInvoked : Bool

/-- Embeds `AcademicAggregator.get_bibtex`: consult the cross-source cache under
`bibtex|<id>`; on a truthy hit return it; otherwise try DBLP native BibTeX
when `use_dblp` is set, and fall back to the normal paper lookup fed into the
synthesizer; truthy outcomes are cached under the cross-source key. -/
def aggGetBibtex (env : AggEnv) (pid : String) (useDblp : Bool) (c : Cache) : AggBibResult :=
  let key := env.hash (bibtexKeyString pid)
  let got := cacheGet c key
  if optStrTruthy got.1 then ⟨got.1, got.2, false, false⟩
  else
    let c := got.2
    let step : Option String × Cache × Bool :=
      if useDblp then
        let r := dblpGetBibtex env pid c
        (r.result, r.cache, true)
      else (none, c, false)
    let dblpRes := step.1
    let c := step.2.1
    let consulted := step.2.2
    if optStrTruthy dblpRes then ⟨dblpRes, cacheSet c key dblpRes, consulted, false⟩
    else
      match env.paperFor pid with
      | some p =>
        let bib := generateBibtex p
        ⟨some bib, cacheSet c key (some bib), consulted, true⟩
      | none => ⟨none, c, consulted, false⟩

/-! ## Aggregator BibTeX batch (`AcademicAggregator.get_bibtex_batch`)

The batch fans out one `get_bibtex` task per id through `asyncio.gather` with
`return_exceptions=True` and collects into a dict keyed by id, in input order.
Each gathered task outcome — the single-call value, or a raised exception —
is supplied by `single`; with pairwise-distinct ids the tasks touch disjoint
cache keys, so the per-task outcome is independent of the interleaving. -/

/-- Translate a gathered task outcome: an exception becomes `None`. -/
def gatherValue (outcome : Except String (Option String)) : Option String :=
  match outcome with
  | .ok r => r
  | .error _ => none

/-- Embeds `AcademicAggregator.get_bibtex_batch` as the dict built in input order. -/
def getBibtexBatch (single : String → Except String (Option String))
    (ids : List String) : List (String × Option String) :=
  ids.foldl (fun m pid => setEntries m pid (gatherValue (single pid))) []

/-! ## Search result construction in the adapters

Each adapter builds its `SearchResult` from the parsed page; the claims about
the result invariants concern exactly these constructions
(`src/academix/clients/dblp.py` lines 194-202, `openalex.py` lines 235-243 and
403-411, `crossref.py` lines 215-223, `semantic.py` lines 187-195 and 368-376,
`src/academic_mcp/clients/arxiv_client.py` lines 167-175). -/

/-- Embeds the `DBLPClient.search` result: `has_more = offset + len(papers) < total`. -/
def dblpMkSearchResult (papers : List Paper) (total offset : Nat) (query : String) :
    SearchResult :=
  { total_results := total, returned_count := papers.length, offset := offset,
    has_more := decide (offset + papers.length < total), papers := papers,
    query := query, source := PaperSource.dblp }

/-- Embeds the `OpenAlexClient.search` and `search_by_author` result construction. -/
def openalexMkSearchResult (papers : List Paper) (total offset : Nat) (query : String) :
    SearchResult :=
  { total_results := total, returned_count := papers.length, offset := offset,
    has_more := decide (offset + papers.length < total), papers := papers,
    query := query, source := PaperSource.openalex }

/-- Embeds the `CrossRefClient.search` result: the total falls back to `len(papers)` when
the API omits `total-results`. -/
def crossrefMkSearchResult (papers : List Paper) (apiTotal : Option Nat) (offset : Nat)
    (query : String) : SearchResult :=
  let total := apiTotal.getD papers.length
  { total_results := total, returned_count := papers.length, offset := offset,
    has_more := decide (offset + papers.length < total), papers := papers,
    query := query, source := PaperSource.crossref }

/-- Embeds the `SemanticScholarClient.search` result: the total falls back to
`len(papers)` and `has_more` mirrors the presence of the `next` cursor. -/
def semanticMkSearchResult (papers : List Paper) (apiTotal : Option Nat) (hasNext : Bool)
    (offset : Nat) (query : String) : SearchResult :=
  { total_results := apiTotal.getD papers.length, returned_count := papers.length,
    offset := offset, has_more := hasNext, papers := papers, query := query,
    source := PaperSource.semantic_scholar }

/-- Embeds the `SemanticScholarClient.search_by_author` result: the author-papers endpoint
exposes no total, so `total_results = len(papers)` and
`has_more = len(papers) == limit`. -/
def semanticAuthorMkSearchResult (papers : List Paper) (limit offset : Nat)
    (authorName : String) : SearchResult :=
  { total_results := papers.length, returned_count := papers.length, offset := offset,
    has_more := papers.length == limit, papers := papers,
    query := "author:" ++ authorName, source := PaperSource.semantic_scholar }

/-! ## OpenAlex pagination (`OpenAlexClient.search`, lines 215-247) -/

/-- The fixed OpenAlex page size. -/
def oaPerPage : Nat := 200

/-- Request parameters built by `OpenAlexClient.search` via `_build_params`. -/
structure OAParams where
  searchQ : String
  per_page : Nat
  page : Nat
  filterQ : Option String
  sortQ : Option String
  mailto : Option String

/-- The parameters `OpenAlexClient.search` sends to `/works`. -/
def openalexParams (email : Option String) (query : String) (offset : Nat)
    (filterQ sortQ : Option String) : OAParams :=
  { searchQ := query, per_page := oaPerPage,
    page := if oaPerPage > 0 then 1 + offset / oaPerPage else 1,
    filterQ := filterQ, sortQ := sortQ, mailto := email }

/-- The slice `papers[offset % per_page:][:limit]` taken from the parsed
page. -/
def openalexPagePapers (parsed : List Paper) (offset limit : Nat) : List Paper :=
  (parsed.drop (offset % oaPerPage)).take limit

/-! ## arXiv search (`ArxivClient.search`, `src/academic_mcp/clients/arxiv_client.py`) -/

/-- The fields of an `arxiv.Result` that `_parse_result` consumes.  `year` and
`published_date` stand for `result.published`; parse failures of the
underlying feed entry are modelled by `mkPaper` returning `none`. -/
structure ArxivRec where
  entry_id : String
  title : String
  summary : Option String
  year : Option Int
  published_date : Option String
  doi : Option String
  pdf_url : Option String
  authorNames : List String
deriving DecidableEq, Repr

/-- The part of a string before the last occurrence of a character
(Python `s.rsplit(c, 1)[0]`, guarded by presence). -/
def beforeLastChar (c : Char) (s : String) : String :=
  match s.data.reverse.dropWhile (fun d => d ≠ c) with
  | [] => s
  | _ :: rest => String.mk rest.reverse

/-- arXiv id extraction in `_parse_result`: the trailing path segment of
`entry_id`, with a trailing version suffix removed at the last `v`. -/
def arxivExtractId (entryId : String) : String :=
  if entryId ≠ "" then
    let aid := ((splitKeep (fun c => c == '/') entryId.data).map String.mk).getLastD ""
    if pyIn "v" aid then beforeLastChar 'v' aid else aid
  else entryId

/-- Embeds `ArxivClient._parse_result` followed by pydantic validation. -/
def arxivParse (r : ArxivRec) : Option Paper :=
  let aid := arxivExtractId r.entry_id
  mkPaper
    { id := if aid ≠ "" then "arxiv:" ++ aid else ""
      title := pyStrip (r.title.replace "\n" " ")
      authors := r.authorNames.map (fun n => { name := n })
      abstract :=
        if optStrTruthy r.summary then some (pyStrip ((r.summary.getD "").replace "\n" " "))
        else none
      year := r.year
      published_date := r.published_date
      venue := some ("arXiv preprint arXiv:" ++ aid)
      doi := r.doi
      arxiv_id := some aid
      url := some r.entry_id
      pdf_url := r.pdf_url
      citation_count := 0
      source := PaperSource.arxiv }

/-- The client-side year filter of `ArxivClient.search` (Python truthiness on
both the bound and the parsed year). -/
def arxivYearRejects (yearFrom yearTo : Option Int) (p : Paper) : Bool :=
  (optIntTruthy yearFrom && optIntTruthy p.year
      && decide (p.year.getD 0 < yearFrom.getD 0))
    || (optIntTruthy yearTo && optIntTruthy p.year
      && decide (yearTo.getD 0 < p.year.getD 0))

/-- Embeds `ArxivClient.search` on the raw feed entries returned by the underlying
client (which was asked for `max_results = limit + offset` records): slice
`[offset : offset + limit]`, parse and year-filter each record skipping
failures, and report `total_results = len(papers)` and
`has_more = len(results) == limit` on the sliced raw list. -/
def arxivSearch (raw : List ArxivRec) (query : String) (limit offset : Nat)
    (yearFrom yearTo : Option Int) : SearchResult :=
  let results := (raw.drop offset).take limit
  let papers := results.filterMap (fun r =>
    match arxivParse r with
    | none => none
    | some p => if arxivYearRejects yearFrom yearTo p then none else some p)
  { total_results := papers.length, returned_count := papers.length, offset := offset,
    has_more := results.length == limit, papers := papers, query := query,
    source := PaperSource.arxiv }

/-! ## Aggregator search dispatch (`AcademicAggregator.search`, lines 106-181)

The outcome of each adapter search under the current call arguments is
supplied by the environment.  The `if/elif` chain matches the four non-default
sources explicitly; both `source=None` and `source=openalex` reach the `else`
branch, which tries OpenAlex, then DBLP, then Semantic Scholar. -/

/-- Per-adapter search outcomes for one set of call arguments. -/
structure SearchEnv where
  openalex : Except String SearchResult
  dblp : Except String SearchResult
  semantic : Except String SearchResult
  arxiv : Except String SearchResult
  crossref : Except String SearchResult

/-- Embeds the `AcademicAggregator.search` source dispatch with default fallback chain. -/
def aggregatorSearch (env : SearchEnv) (source : Option PaperSource) :
    Except String SearchResult :=
  if source = some PaperSource.dblp then env.dblp
  else if source = some PaperSource.semantic_scholar then env.semantic
  else if source = some PaperSource.arxiv then env.arxiv
  else if source = some PaperSource.crossref then env.crossref
  else
    match env.openalex with
    | .ok r => .ok r
    | .error _ =>
      match env.dblp with
      | .ok r => .ok r
      | .error _ => env.semantic

/-! ## Concrete values used by witnesses and counterexamples -/

/-- A concrete DBLP search result for exercising the fallback chain. -/
def c1FallbackResult : SearchResult :=
  { total_results := 1, returned_count := 0, offset := 0, has_more := true,
    papers := [], query := "q", source := PaperSource.dblp }

/-- Environment in which OpenAlex raises and DBLP succeeds. -/
def c1Env : SearchEnv :=
  { openalex := .error "HTTP 500", dblp := .ok c1FallbackResult,
    semantic := .error "unused", arxiv := .error "unused", crossref := .error "unused" }

/-- Environment for the native-BibTeX scenario: the direct `.bib` fetch for
the slash-shaped key returns 200 with an `@`-entry. -/
def c4EnvNative : AggEnv :=
  { hash := id,
    dblpRecBib := fun k =>
      if k = "journals/nature/Smith24" then .ok (200, " @article DBLP Smith24 ")
      else .error "404",
    dblpSearchFirstId := fun _ => .ok none,
    paperFor := fun _ => none }

/-- A concrete paper produced by the normal lookup in the synthesizer
scenario. -/
def c4Paper : Paper :=
  { id := "W1", title := "Testing", authors := [{ name := "Ann Smith" }],
    year := some 2024, source := PaperSource.openalex }

/-- Environment for the synthesizer scenario: every DBLP interaction fails and
the normal paper lookup finds `c4Paper`. -/
def c4EnvMiss : AggEnv :=
  { hash := id,
    dblpRecBib := fun _ => .error "timeout",
    dblpSearchFirstId := fun _ => .ok none,
    paperFor := fun pid => if pid = "10.1000/x" then some c4Paper else none }

/-- Gathered per-id outcomes for the batch witness: the middle id raises. -/
def c5Single (pid : String) : Except String (Option String) :=
  if pid = "b" then .error "boom" else .ok (some ("bib:" ++ pid))

/-- First paper of the key-collision batch. -/
def c9PaperA : Paper :=
  { id := "1", title := "Deep learning", authors := [{ name := "Ann Smith" }],
    source := PaperSource.arxiv }

/-- Second paper with the same natural key as the first. -/
def c9PaperB : Paper :=
  { id := "2", title := "Deep learning", authors := [{ name := "Ann Smith" }],
    source := PaperSource.arxiv }

/-- Third paper whose natural key equals the first key plus the suffix `a`. -/
def c9PaperC : Paper :=
  { id := "3", title := "Deepa dive", authors := [{ name := "Ann Smith" }],
    source := PaperSource.arxiv }

/-- Environment for the stored-`None` re-fetch witness. -/
def c10Env : AggEnv :=
  { hash := id,
    dblpRecBib := fun _ => .error "down",
    dblpSearchFirstId := fun _ => .ok none,
    paperFor := fun _ => none }

/-- A concrete parsed arXiv feed entry. -/
def c8Rec : ArxivRec :=
  { entry_id := "http://arxiv.org/abs/2401.12345v3", title := "Attention",
    summary := some "An abstract", year := some 2024,
    published_date := some "2024-01-20", doi := none, pdf_url := none,
    authorNames := ["Ann Smith"] }

/-! ## Theorems for C2 and C7 -/

/-- C2 (amended, determinism direction): two `search_key` computations with the
same source, the same query after lowercasing and stripping, the same limit and
offset, and named arguments that agree after sorting, hash to the same cache
key, whatever digest function is used. -/
theorem C2_cache_key_deterministic (hash : String → String) (source q1 q2 : String)
    (l1 l2 o1 o2 : Nat) (f1 f2 : List (String × String))
    (hq : pyStrip (pyLower q1) = pyStrip (pyLower q2)) (hl : l1 = l2) (ho : o1 = o2)
    (hf : sortPairs ([("limit", toString l1), ("offset", toString o1)] ++ f1)
        = sortPairs ([("limit", toString l2), ("offset", toString o2)] ++ f2)) :
    hash (searchKeyString source q1 l1 o1 f1) = hash (searchKeyString source q2 l2 o2 f2) := by
  unfold searchKeyString makeKeyString
  rw [hq, hf]

/-- C2 witness: the determinism direction at a concrete input — queries that
differ only in case and surrounding whitespace and named arguments given in a
different order produce the same key string. -/
theorem C2_cache_key_deterministic_witness :
    searchKeyString "dblp" " Attention " 10 0 [("venue", "NeurIPS"), ("sort", "None")]
      = searchKeyString "dblp" "attention" 10 0 [("sort", "None"), ("venue", "NeurIPS")] :=
  C2_cache_key_deterministic id "dblp" " Attention " "attention" 10 10 0 0
    [("venue", "NeurIPS"), ("sort", "None")] [("sort", "None"), ("venue", "NeurIPS")]
    (by decide) rfl rfl (by decide)

/-- C2 counterexample: the claimed converse fails.  Joining arguments with
the vertical bar and `k=v` is not injective: a filter value that itself
contains the separators collides with a distinct argument tuple, so the two
key strings — and hence the md5 keys — are equal while the sorted named
arguments differ. -/
theorem C2_cache_key_collision :
    searchKeyString "s" "q" 10 0 [("venue", "x|w=1")]
        = searchKeyString "s" "q" 10 0 [("venue", "x"), ("w", "1")]
      ∧ sortPairs [("venue", "x|w=1")] ≠ sortPairs [("venue", "x"), ("w", "1")] := by
  constructor
  · decide
  · decide

/-- C7: with both a year range and a venue supplied, the query string sent to
DBLP carries only the venue term — the assignment guarded by `if venue:`
rebuilds it from the unfiltered `query`, discarding the year term built just
before.  The spec requires both filters to be baked in. -/
theorem C7_venue_overwrites_year_filter :
    dblpBuildQuery "deep learning" (some 2020) (some 2022) (some "NeurIPS")
        = "deep learning venue:NeurIPS"
      ∧ pyIn "year:" (dblpBuildQuery "deep learning" (some 2020) (some 2022)
          (some "NeurIPS")) = false
      ∧ dblpBuildQuery "deep learning" (some 2020) (some 2022) none
        = "deep learning year:2020:2022" := by
  refine ⟨by decide, by decide, by decide⟩

/-! ## Helper lemmas -/

/-- A string whose character list is a cons is nonempty. -/
theorem string_ne_empty_of_data {s : String} {c : Char} {t : List Char}
    (h : s.data = c :: t) : s ≠ "" := by
  intro he
  rw [he] at h
  simp at h

/-- A string starting with `@` is nonempty. -/
theorem pyStartsWith_at_ne_empty {s : String} (h : pyStartsWith "@" s = true) : s ≠ "" := by
  unfold pyStartsWith at h
  cases hd : s.data with
  | nil => rw [hd] at h; simp [isPrefixB] at h
  | cons c t => exact string_ne_empty_of_data hd

/-- Joining at least two lines with a newline yields a nonempty string. -/
theorem pyJoin_cons_cons_ne (x y : String) (xs : List String) :
    pyJoin "\n" (x :: y :: xs) ≠ "" := by
  show x ++ "\n" ++ pyJoin "\n" (y :: xs) ≠ ""
  intro h
  have hd : (x ++ "\n" ++ pyJoin "\n" (y :: xs)).data = [] := by rw [h]
  simp [String.data_append] at hd

/-- Appending the closing-brace line keeps the joined entry nonempty. -/
theorem pyJoin_append_brace_ne (ls : List String) :
    pyJoin "\n" (ls ++ ["\x7d"]) ≠ "" := by
  cases ls with
  | nil => decide
  | cons a as =>
    cases as with
    | nil => exact pyJoin_cons_cons_ne _ _ _
    | cons b bs => exact pyJoin_cons_cons_ne _ _ _

/-- A generated BibTeX entry is never the empty string. -/
theorem generateBibtexWith_ne_empty (p : Paper) (k : Option String) :
    generateBibtexWith p k ≠ "" := by
  unfold generateBibtexWith
  exact pyJoin_append_brace_ne _

/-- Looking up a key immediately after setting it returns the stored value. -/
theorem findSetEntries (l : List (String × Option String)) (k : String) (v : Option String) :
    ((setEntries l k v).find? (fun e => e.1 == k)).map (fun e => e.2) = some v := by
  induction l with
  | nil => simp [setEntries, List.find?]
  | cons e t ih =>
    obtain ⟨k1, v1⟩ := e
    cases hk : k1 == k with
    | true => simp [setEntries, hk, List.find?]
    | false => simp [setEntries, hk, List.find?, ih]

/-- Looking up a key right after `cacheSet` of that key yields the stored value. -/
theorem cacheLookup_set_self (c : Cache) (k : String) (v : Option String) :
    cacheLookup (cacheSet c k v) k = some v := findSetEntries c.entries k v

/-- Reading through `cacheGet` leaves the entry list untouched. -/
theorem cacheGet_entries (c : Cache) (k : String) :
    ((cacheGet c k).2).entries = c.entries := by
  unfold cacheGet
  cases h : cacheLookup c k <;> simp

/-- The value `cacheGet` returns is the stored value, defaulting to `none`. -/
theorem cacheGet_fst (c : Cache) (k : String) :
    (cacheGet c k).1 = (cacheLookup c k).getD none := by
  unfold cacheGet
  cases h : cacheLookup c k <;> simp

/-- An empty entry list makes every lookup miss. -/
theorem cacheLookup_of_entries_nil {c : Cache} (h : c.entries = []) (k : String) :
    cacheLookup c k = none := by
  simp [cacheLookup, h]

/-! ## C1 -/

/-- C1 counterexample: with an explicit `source=openalex` and OpenAlex
raising, the aggregator falls back to DBLP and returns its result instead of
surfacing the OpenAlex error — the explicit-openalex case reaches the default
`else` branch. -/
theorem C1_explicit_openalex_falls_back :
    c1Env.openalex = Except.error "HTTP 500"
      ∧ aggregatorSearch c1Env (some PaperSource.openalex) = Except.ok c1FallbackResult := by
  constructor
  · rfl
  · rfl

/-- C1 (amended): explicit `dblp`, `semantic_scholar`, `arxiv` and `crossref`
requests surface exactly the chosen adapter outcome with no fallback; with no
source — or with explicit `openalex`, which the dispatch treats identically —
OpenAlex is tried first, on any failure DBLP, and on its failure Semantic
Scholar. -/
theorem C1_search_dispatch (env : SearchEnv) :
    aggregatorSearch env (some PaperSource.dblp) = env.dblp
      ∧ aggregatorSearch env (some PaperSource.semantic_scholar) = env.semantic
      ∧ aggregatorSearch env (some PaperSource.arxiv) = env.arxiv
      ∧ aggregatorSearch env (some PaperSource.crossref) = env.crossref
      ∧ (∀ r, env.openalex = Except.ok r → aggregatorSearch env none = Except.ok r)
      ∧ (∀ e r, env.openalex = Except.error e → env.dblp = Except.ok r →
          aggregatorSearch env none = Except.ok r)
      ∧ (∀ e e2, env.openalex = Except.error e → env.dblp = Except.error e2 →
          aggregatorSearch env none = env.semantic)
      ∧ aggregatorSearch env (some PaperSource.openalex) = aggregatorSearch env none := by
  refine ⟨rfl, rfl, rfl, rfl, ?_, ?_, ?_, rfl⟩
  · intro r h
    simp [aggregatorSearch, h]
  · intro e r h1 h2
    simp [aggregatorSearch, h1, h2]
  · intro e e2 h1 h2
    simp [aggregatorSearch, h1, h2]

/-- C1 witness: the dispatch equalities evaluated in the concrete environment
where OpenAlex fails and DBLP succeeds. -/
theorem C1_search_dispatch_witness :
    aggregatorSearch c1Env (some PaperSource.dblp) = c1Env.dblp
      ∧ aggregatorSearch c1Env none = Except.ok c1FallbackResult := by
  refine ⟨(C1_search_dispatch c1Env).1, ?_⟩
  exact (C1_search_dispatch c1Env).2.2.2.2.2.1 "HTTP 500" c1FallbackResult rfl rfl

/-! ## C3 -/

/-- C3 counterexample: an arXiv search over a one-record page with
`limit = 1, offset = 0` reports `has_more = true` while
`total_results = offset + returned_count`, violating the claimed bound
`has_more ⇒ total_results > offset + returned_count`. -/
theorem C3_arxiv_has_more_violation :
    (arxivSearch [c8Rec] "attention" 1 0 none none).has_more = true
      ∧ (arxivSearch [c8Rec] "attention" 1 0 none none).total_results = 1
      ∧ (arxivSearch [c8Rec] "attention" 1 0 none none).offset = 0
      ∧ (arxivSearch [c8Rec] "attention" 1 0 none none).returned_count = 1
      ∧ ¬((arxivSearch [c8Rec] "attention" 1 0 none none).total_results
          > (arxivSearch [c8Rec] "attention" 1 0 none none).offset
            + (arxivSearch [c8Rec] "attention" 1 0 none none).returned_count) := by
  refine ⟨by decide, by decide, by decide, by decide, by decide⟩

/-- C3 (amended): every adapter search and author-search result satisfies
`returned_count = len(papers)`; the bound
`has_more ⇒ total_results > offset + returned_count` holds for the adapters
that compute `has_more` as `offset + len(papers) < total` — DBLP, OpenAlex and
CrossRef — but not for arXiv or the Semantic Scholar author search, whose
`total_results` is a surrogate for an unknown total. -/
theorem C3_result_invariants :
    (∀ papers total offset q, (dblpMkSearchResult papers total offset q).returned_count
        = (dblpMkSearchResult papers total offset q).papers.length)
      ∧ (∀ papers total offset q, (openalexMkSearchResult papers total offset q).returned_count
        = (openalexMkSearchResult papers total offset q).papers.length)
      ∧ (∀ papers apiTotal offset q,
        (crossrefMkSearchResult papers apiTotal offset q).returned_count
          = (crossrefMkSearchResult papers apiTotal offset q).papers.length)
      ∧ (∀ papers apiTotal hasNext offset q,
        (semanticMkSearchResult papers apiTotal hasNext offset q).returned_count
          = (semanticMkSearchResult papers apiTotal hasNext offset q).papers.length)
      ∧ (∀ papers limit offset name,
        (semanticAuthorMkSearchResult papers limit offset name).returned_count
          = (semanticAuthorMkSearchResult papers limit offset name).papers.length)
      ∧ (∀ raw q limit offset yf yt, (arxivSearch raw q limit offset yf yt).returned_count
        = (arxivSearch raw q limit offset yf yt).papers.length)
      ∧ (∀ papers total offset q, (dblpMkSearchResult papers total offset q).has_more = true →
        (dblpMkSearchResult papers total offset q).total_results
          > (dblpMkSearchResult papers total offset q).offset
            + (dblpMkSearchResult papers total offset q).returned_count)
      ∧ (∀ papers total offset q, (openalexMkSearchResult papers total offset q).has_more = true →
        (openalexMkSearchResult papers total offset q).total_results
          > (openalexMkSearchResult papers total offset q).offset
            + (openalexMkSearchResult papers total offset q).returned_count)
      ∧ (∀ papers apiTotal offset q,
        (crossrefMkSearchResult papers apiTotal offset q).has_more = true →
        (crossrefMkSearchResult papers apiTotal offset q).total_results
          > (crossrefMkSearchResult papers apiTotal offset q).offset
            + (crossrefMkSearchResult papers apiTotal offset q).returned_count) := by
  refine ⟨fun _ _ _ _ => rfl, fun _ _ _ _ => rfl, fun _ _ _ _ => rfl,
    fun _ _ _ _ _ => rfl, fun _ _ _ _ => rfl, fun _ _ _ _ _ _ => rfl, ?_, ?_, ?_⟩
  · intro papers total offset q h
    exact of_decide_eq_true h
  · intro papers total offset q h
    exact of_decide_eq_true h
  · intro papers apiTotal offset q h
    exact of_decide_eq_true h

/-- C3 witness: the invariants evaluated at concrete results, including a DBLP
result whose `has_more` is set. -/
theorem C3_result_invariants_witness :
    (dblpMkSearchResult [] 5 0 "q").returned_count = (dblpMkSearchResult [] 5 0 "q").papers.length
      ∧ (dblpMkSearchResult [] 5 0 "q").total_results
        > (dblpMkSearchResult [] 5 0 "q").offset + (dblpMkSearchResult [] 5 0 "q").returned_count := by
  refine ⟨C3_result_invariants.1 [] 5 0 "q", ?_⟩
  exact C3_result_invariants.2.2.2.2.2.2.1 [] 5 0 "q" (by decide)

/-! ## C6 -/

/-- C6: `OpenAlexClient.search` requests page `1 + offset / 200` at the fixed
page size 200 — never `limit + offset` — and returns exactly the slice
`[offset mod 200 : offset mod 200 + limit]` of the parsed page. -/
theorem C6_openalex_pagination (email : Option String) (query : String)
    (filterQ sortQ : Option String) (offset limit : Nat) (parsed : List Paper) :
    (openalexParams email query offset filterQ sortQ).per_page = 200
      ∧ (openalexParams email query offset filterQ sortQ).page = 1 + offset / 200
      ∧ (openalexPagePapers parsed offset limit).length
        = min limit (parsed.length - offset % 200)
      ∧ ∀ i : Nat, (openalexPagePapers parsed offset limit).get? i
        = if i < limit then parsed.get? (offset % 200 + i) else none := by
  refine ⟨rfl, rfl, ?_, ?_⟩
  · simp [openalexPagePapers, oaPerPage]
  · intro i
    by_cases hi : i < limit
    · simp [openalexPagePapers, oaPerPage, hi, List.get?_take, List.get?_drop]
    · simp only [openalexPagePapers, oaPerPage, hi, if_false]
      refine List.get?_eq_none.mpr ?_
      calc ((parsed.drop (offset % 200)).take limit).length ≤ limit :=
            (List.length_take _ _).trans_le (Nat.min_le_left _ _)
        _ ≤ i := Nat.le_of_not_lt hi

/-- C6 witness: the pagination facts at `offset = 250, limit = 5` on an empty
parsed page. -/
theorem C6_openalex_pagination_witness :
    (openalexParams none "q" 250 none none).page = 1 + 250 / 200
      ∧ (openalexPagePapers [] 250 5).get? 0
        = if 0 < 5 then ([] : List Paper).get? (250 % 200 + 0) else none := by
  refine ⟨(C6_openalex_pagination none "q" none none 250 5 []).2.1, ?_⟩
  exact (C6_openalex_pagination none "q" none none 250 5 []).2.2.2 0

/-! ## C8 -/

/-- C8: an arXiv search reports `total_results` equal to the number of parsed
(and year-filtered) records, and — the underlying client never returning more
than the requested `limit + offset` records — `has_more` is true exactly when
the raw fetch came back full. -/
theorem C8_arxiv_total_and_page_full (raw : List ArxivRec) (query : String)
    (limit offset : Nat) (yf yt : Option Int)
    (hcap : raw.length ≤ limit + offset) (hlim : 0 < limit) :
    (arxivSearch raw query limit offset yf yt).total_results
        = (arxivSearch raw query limit offset yf yt).papers.length
      ∧ ((arxivSearch raw query limit offset yf yt).has_more = true
        ↔ raw.length = limit + offset) := by
  refine ⟨rfl, ?_⟩
  show (((raw.drop offset).take limit).length == limit) = true ↔ raw.length = limit + offset
  rw [beq_iff_eq]
  simp only [List.length_take, List.length_drop]
  omega

/-- C8 witness: a single-record page with `limit = 1, offset = 0` is full, so
`has_more` holds and the totals agree. -/
theorem C8_arxiv_witness :
    (arxivSearch [c8Rec] "attention" 1 0 none none).total_results
        = (arxivSearch [c8Rec] "attention" 1 0 none none).papers.length
      ∧ ((arxivSearch [c8Rec] "attention" 1 0 none none).has_more = true
        ↔ ([c8Rec] : List ArxivRec).length = 1 + 0) :=
  C8_arxiv_total_and_page_full [c8Rec] "attention" 1 0 none none (by decide) (by decide)

/-! ## C9 -/

/-- A key returned by the suffix-search loop is not among the used keys. -/
theorem freshKey_not_mem : ∀ (fuel : Nat) (used : List String) (orig k : String),
    freshKey used orig fuel = some k → k ∉ used := by
  intro fuel
  induction fuel with
  | zero => intro used orig k h; simp [freshKey] at h
  | succ n ih =>
    intro used orig k h
    unfold freshKey at h
    cases hc : candidateKey orig ((used.length + 1) - (n + 1)) with
    | none => rw [hc] at h; simp at h
    | some cand =>
      rw [hc] at h
      simp only [List.contains, List.elem_eq_mem] at h
      by_cases hmem : cand ∈ used
      · rw [if_pos (by simpa using hmem)] at h
        exact ih used orig k h
      · rw [if_neg (by simpa using hmem)] at h
        obtain rfl : cand = k := Option.some.inj h
        exact hmem

/-- When the natural key is still unused, the loop keeps it unchanged. -/
theorem freshKey_self (used : List String) (orig : String) (h : orig ∉ used) :
    freshKey used orig (used.length + 1) = some orig := by
  unfold freshKey
  have hc : candidateKey orig 0 = some orig := rfl
  simp [Nat.sub_self, hc, List.contains, List.elem_eq_mem, h]

/-- The keys assigned by the batch loop extend the used set without
duplicates. -/
theorem assignKeysGo_nodup : ∀ (ps : List Paper) (used : List String) (ks : List String),
    used.Nodup → assignKeysGo used ps = some ks → (used ++ ks).Nodup := by
  intro ps
  induction ps with
  | nil =>
    intro used ks hu h
    simp [assignKeysGo] at h
    subst h
    simpa using hu
  | cons p ps ih =>
    intro used ks hu h
    unfold assignKeysGo at h
    cases hf : freshKey used (naturalKey p) (used.length + 1) with
    | none => rw [hf] at h; simp at h
    | some k =>
      rw [hf] at h
      simp only [Option.map_eq_some'] at h
      obtain ⟨ks1, h1, h2⟩ := h
      subst h2
      have hk := freshKey_not_mem _ _ _ _ hf
      have hu2 : (used ++ [k]).Nodup := by
        simp [List.nodup_append, hu, hk]
      have := ih (used ++ [k]) ks1 hu2 h1
      simpa [List.append_assoc] using this

/-- When the natural keys are pairwise distinct the loop assigns exactly
them. -/
theorem assignKeysGo_natural : ∀ (ps : List Paper) (used : List String),
    (∀ p ∈ ps, naturalKey p ∉ used) → (ps.map naturalKey).Nodup →
    assignKeysGo used ps = some (ps.map naturalKey) := by
  intro ps
  induction ps with
  | nil => intro used _ _; rfl
  | cons p ps ih =>
    intro used hmem hnd
    have h1 : naturalKey p ∉ used := hmem p (List.mem_cons_self _ _)
    unfold assignKeysGo
    rw [freshKey_self used _ h1]
    have hmem2 : ∀ q ∈ ps, naturalKey q ∉ used ++ [naturalKey p] := by
      intro q hq
      simp only [List.mem_append, List.mem_singleton]
      rintro (hin | heq)
      · exact hmem q (List.mem_cons_of_mem _ hq) hin
      · have hp : naturalKey p ∉ ps.map naturalKey := (List.nodup_cons.mp (by simpa using hnd)).1
        exact hp (heq ▸ List.mem_map_of_mem naturalKey hq)
    have hnd2 : (ps.map naturalKey).Nodup := (List.nodup_cons.mp (by simpa using hnd)).2
    simp [ih (used ++ [naturalKey p]) hmem2 hnd2]

/-- C9 (amended): whenever `generate_bibtex_batch` completes, the citation
keys it assigns are pairwise distinct, and when the natural keys are already
pairwise distinct every paper keeps its unsuffixed natural key.  (The claimed
stronger reading — that the first occurrence of a natural key is always
unsuffixed — fails when a suffixed key collides with a later natural key.) -/
theorem C9_batch_keys_distinct (ps : List Paper) (ks : List String)
    (h : batchAssignKeys ps = some ks) :
    ks.Nodup ∧ ((ps.map naturalKey).Nodup → ks = ps.map naturalKey) := by
  constructor
  · have := assignKeysGo_nodup ps [] ks List.nodup_nil h
    simpa using this
  · intro hnd
    have h2 := assignKeysGo_natural ps [] (by simp) hnd
    unfold batchAssignKeys at h
    rw [h2] at h
    exact (Option.some.inj h).symm

/-- C9 witness: a two-paper batch with colliding natural keys gets the keys
`SmithDeep` and `SmithDeepa`, which are distinct. -/
theorem C9_batch_keys_distinct_witness :
    batchAssignKeys [c9PaperA, c9PaperB] = some ["SmithDeep", "SmithDeepa"]
      ∧ (["SmithDeep", "SmithDeepa"] : List String).Nodup := by
  refine ⟨by decide, ?_⟩
  exact (C9_batch_keys_distinct [c9PaperA, c9PaperB] ["SmithDeep", "SmithDeepa"] (by decide)).1

/-- C9 counterexample: in the batch `[A, B, C]` the natural keys are
`SmithDeep, SmithDeep, SmithDeepa`; paper `C` is the only occurrence of its
natural key `SmithDeepa`, yet it receives the suffixed key `SmithDeepaa`
because `B` was already deduplicated onto `SmithDeepa` — contradicting the
claim that only later occurrences of colliding natural keys are suffixed while
first occurrences keep the unsuffixed key. -/
theorem C9_suffix_cascade_counterexample :
    batchAssignKeys [c9PaperA, c9PaperB, c9PaperC]
        = some ["SmithDeep", "SmithDeepa", "SmithDeepaa"]
      ∧ naturalKey c9PaperC = "SmithDeepa"
      ∧ ([c9PaperA, c9PaperB, c9PaperC].map naturalKey).count "SmithDeepa" = 1 := by
  refine ⟨by decide, by decide, by decide⟩

/-! ## C5 -/

/-- Inserting an absent key appends it. -/
theorem setEntries_append (m : List (String × Option String)) (k : String)
    (v : Option String) (h : ∀ e ∈ m, e.1 ≠ k) : setEntries m k v = m ++ [(k, v)] := by
  induction m with
  | nil => rfl
  | cons e t ih =>
    obtain ⟨k1, v1⟩ := e
    have hne : k1 ≠ k := h (k1, v1) (List.mem_cons_self _ _)
    have hb : (k1 == k) = false := beq_eq_false_iff_ne.mpr hne
    simp [setEntries, hb, ih (fun e he => h e (List.mem_cons_of_mem _ he))]

/-- Folding dict insertion over fresh, pairwise-distinct keys appends the
key-value pairs in input order. -/
theorem foldl_setEntries (f : String → Option String) :
    ∀ (ids : List String) (m : List (String × Option String)),
    (∀ pid ∈ ids, ∀ e ∈ m, e.1 ≠ pid) → ids.Nodup →
    ids.foldl (fun m pid => setEntries m pid (f pid)) m
      = m ++ ids.map (fun pid => (pid, f pid)) := by
  intro ids
  induction ids with
  | nil => intro m _ _; simp
  | cons a t ih =>
    intro m hdisj hnd
    simp only [List.foldl_cons]
    rw [setEntries_append m a (f a) (fun e he => hdisj a (List.mem_cons_self _ _) e he)]
    rw [ih (m ++ [(a, f a)]) ?_ (List.nodup_cons.mp hnd).2]
    · simp
    · intro pid hpid e he
      rcases List.mem_append.mp he with hm | hs
      · exact hdisj pid (List.mem_cons_of_mem _ hpid) e hm
      · have he2 : e = (a, f a) := by simpa using hs
        subst he2
        intro hcontra
        have ha : a = pid := hcontra
        rw [← ha] at hpid
        exact (List.nodup_cons.mp hnd).1 hpid

/-- C5: on pairwise-distinct paper ids the batch returns one entry per id, in
input order, each entry being the gathered single-call outcome with any raised
exception mapped to `None` — and the batch itself always yields a map. -/
theorem C5_batch_order (single : String → Except String (Option String))
    (ids : List String) (h : ids.Nodup) :
    getBibtexBatch single ids = ids.map (fun pid => (pid, gatherValue (single pid)))
      ∧ (getBibtexBatch single ids).map Prod.fst = ids
      ∧ ∀ pid err, pid ∈ ids → single pid = .error err →
          (pid, (none : Option String)) ∈ getBibtexBatch single ids := by
  have h1 : getBibtexBatch single ids
      = ids.map (fun pid => (pid, gatherValue (single pid))) := by
    unfold getBibtexBatch
    simpa using foldl_setEntries (fun pid => gatherValue (single pid)) ids []
      (by simp) h
  refine ⟨h1, ?_, ?_⟩
  · rw [h1, List.map_map]
    exact List.map_id ids
  · intro pid err hpid herr
    rw [h1]
    have hv : (pid, (none : Option String)) = (pid, gatherValue (single pid)) := by
      simp [gatherValue, herr]
    rw [hv]
    exact List.mem_map_of_mem _ hpid

/-- C5 witness: the batch over `a, b, c` where the middle task raises —
entries come back in input order with the failure mapped to `None`. -/
theorem C5_batch_order_witness :
    getBibtexBatch c5Single ["a", "b", "c"]
      = ["a", "b", "c"].map (fun pid => (pid, gatherValue (c5Single pid))) :=
  (C5_batch_order c5Single ["a", "b", "c"] (by decide)).1

/-! ## C10 -/

/-- A truthy cached entry short-circuits `get_bibtex`: the call returns it,
bumps the hit counter, and consults nothing. -/
theorem aggGetBibtex_hit (env : AggEnv) (pid : String) (u : Bool) (c : Cache) (r : String)
    (hne : r ≠ "") (hl : cacheLookup c (env.hash (bibtexKeyString pid)) = some (some r)) :
    aggGetBibtex env pid u c
      = ⟨some r, { c with hits := c.hits + 1 }, false, false⟩ := by
  have hg : cacheGet c (env.hash (bibtexKeyString pid))
      = (some r, { c with hits := c.hits + 1 }) := by
    unfold cacheGet
    rw [hl]
  simp [aggGetBibtex, hg, optStrTruthy, hne]

/-- C10: a stored `None` is counted as a hit by `APICache.get` yet returned as
`None` — the same value a genuine miss returns — and the truthiness test of the
aggregator on the cached value therefore proceeds to DBLP exactly as if
the entry were absent. -/
theorem C10_cached_none_indistinguishable :
    (∀ (c : Cache) (k : String), (cacheGet (cacheSet c k none) k).1 = none
        ∧ ((cacheGet (cacheSet c k none) k).2).hits = c.hits + 1)
      ∧ (∀ (c : Cache) (k : String), cacheLookup c k = none → (cacheGet c k).1 = none)
      ∧ (∀ (env : AggEnv) (pid : String) (c : Cache),
          cacheLookup c (env.hash (bibtexKeyString pid)) = some none →
          (aggGetBibtex env pid true c).dblpConsulted = true) := by
  refine ⟨fun c k => ?_, fun c k h => ?_, fun env pid c h => ?_⟩
  · have hl := cacheLookup_set_self c k none
    constructor
    · rw [cacheGet_fst, hl]
      rfl
    · unfold cacheGet
      rw [hl]
      rfl
  · rw [cacheGet_fst, h]
    rfl
  · have hg : cacheGet c (env.hash (bibtexKeyString pid))
        = (none, { c with hits := c.hits + 1 }) := by
      unfold cacheGet
      rw [h]
    simp only [aggGetBibtex, hg]
    split
    · next hfalse => simp [optStrTruthy] at hfalse
    · split
      · split
        · rfl
        · split <;> rfl
      · next hfalse => simp at hfalse

/-- C10 witness: the hit-yet-`None` accounting on a concrete cache, the miss
comparison, and the re-fetch through the concrete environment. -/
theorem C10_cached_none_witness :
    ((cacheGet (cacheSet emptyCache "k" none) "k").1 = none
        ∧ ((cacheGet (cacheSet emptyCache "k" none) "k").2).hits = emptyCache.hits + 1)
      ∧ (cacheGet emptyCache "k").1 = none
      ∧ (aggGetBibtex c10Env "p" true
          (cacheSet emptyCache (c10Env.hash (bibtexKeyString "p")) none)).dblpConsulted
        = true := by
  refine ⟨C10_cached_none_indistinguishable.1 emptyCache "k", ?_, ?_⟩
  · exact C10_cached_none_indistinguishable.2.1 emptyCache "k" rfl
  · exact C10_cached_none_indistinguishable.2.2 c10Env "p" _ (cacheLookup_set_self _ _ _)

/-! ## C4 -/

/-- C4: with `use_dblp` set and an empty cache, (a) when the direct DBLP
`.bib` fetch for a slash-shaped id returns 200 with a body whose stripped form
starts with `@`, that stripped body is the result, the synthesizer is never
invoked, and a repeated call is served from the `bibtex:` cache without
consulting DBLP again; (b) when `DBLPClient.get_bibtex` comes back empty for
any fresh cache, the normal paper lookup is performed and its result fed to
`generate_bibtex`, and the synthesized entry is likewise cached for the
repeated call. -/
theorem C4_bibtex_dblp_precedence (env : AggEnv) (pid body : String) :
    (pyIn "/" pid = true →
      env.dblpRecBib pid = Except.ok (200, body) →
      pyStartsWith "@" (pyStrip body) = true →
      (aggGetBibtex env pid true emptyCache).result = some (pyStrip body)
        ∧ (aggGetBibtex env pid true emptyCache).synthInvoked = false
        ∧ (aggGetBibtex env pid true
            ((aggGetBibtex env pid true emptyCache).cache)).result = some (pyStrip body)
        ∧ (aggGetBibtex env pid true
            ((aggGetBibtex env pid true emptyCache).cache)).dblpConsulted = false)
      ∧ ((∀ c0 : Cache, c0.entries = [] → (dblpGetBibtex env pid c0).result = none) →
        (aggGetBibtex env pid true emptyCache).result
            = (env.paperFor pid).map generateBibtex
          ∧ (aggGetBibtex env pid true emptyCache).dblpConsulted = true
          ∧ (aggGetBibtex env pid true emptyCache).synthInvoked
              = (env.paperFor pid).isSome
          ∧ ∀ p, env.paperFor pid = some p →
              (aggGetBibtex env pid true
                ((aggGetBibtex env pid true emptyCache).cache)).result
                = some (generateBibtex p)) := by
  constructor
  · intro hslash hok hat
    have hb : pyStrip body ≠ "" := pyStartsWith_at_ne_empty hat
    have hd : dblpGetBibtex env pid { entries := [], hits := 0, misses := 1 }
        = ⟨some (pyStrip body),
           cacheSet { entries := [], hits := 0, misses := 2 }
             (env.hash (bibtexKeyString ("dblp:" ++ pid))) (some (pyStrip body))⟩ := by
      have hg : cacheGet { entries := [], hits := 0, misses := 1 }
          (env.hash (bibtexKeyString ("dblp:" ++ pid)))
          = (none, { entries := [], hits := 0, misses := 2 }) := rfl
      simp [dblpGetBibtex, hg, optStrTruthy, hslash, hok, hb, hat]
    have e1 : aggGetBibtex env pid true emptyCache
        = ⟨some (pyStrip body),
           cacheSet (cacheSet { entries := [], hits := 0, misses := 2 }
               (env.hash (bibtexKeyString ("dblp:" ++ pid))) (some (pyStrip body)))
             (env.hash (bibtexKeyString pid)) (some (pyStrip body)), true, false⟩ := by
      have hg0 : cacheGet emptyCache (env.hash (bibtexKeyString pid))
          = (none, { entries := [], hits := 0, misses := 1 }) := rfl
      simp [aggGetBibtex, hg0, optStrTruthy, hd, hb]
    refine ⟨by rw [e1], by rw [e1], ?_, ?_⟩
    · rw [e1, aggGetBibtex_hit env pid true _ (pyStrip body) hb (cacheLookup_set_self _ _ _)]
    · rw [e1, aggGetBibtex_hit env pid true _ (pyStrip body) hb (cacheLookup_set_self _ _ _)]
  · intro hmiss
    have hd0 := hmiss { entries := [], hits := 0, misses := 1 } rfl
    have hg0 : cacheGet emptyCache (env.hash (bibtexKeyString pid))
        = (none, { entries := [], hits := 0, misses := 1 }) := rfl
    cases hp : env.paperFor pid with
    | none =>
      have e1 : aggGetBibtex env pid true emptyCache
          = ⟨none, (dblpGetBibtex env pid { entries := [], hits := 0, misses := 1 }).cache,
             true, false⟩ := by
        simp [aggGetBibtex, hg0, optStrTruthy, hd0, hp]
      refine ⟨by rw [e1]; simp [hp], by rw [e1], by rw [e1]; simp [hp], ?_⟩
      intro p hp2
      exact absurd hp2 (by simp)
    | some p =>
      have e1 : aggGetBibtex env pid true emptyCache
          = ⟨some (generateBibtex p),
             cacheSet (dblpGetBibtex env pid { entries := [], hits := 0, misses := 1 }).cache
               (env.hash (bibtexKeyString pid)) (some (generateBibtex p)), true, true⟩ := by
        simp [aggGetBibtex, hg0, optStrTruthy, hd0, hp]
      refine ⟨by rw [e1]; simp [hp], by rw [e1], by rw [e1]; simp [hp], ?_⟩
      intro q hq
      obtain rfl := Option.some.inj hq
      rw [e1, aggGetBibtex_hit env pid true _ (generateBibtex p)
        (generateBibtexWith_ne_empty p none) (cacheLookup_set_self _ _ _)]

/-- C4 witness: the native-hit scenario through `c4EnvNative` and the
synthesizer scenario through `c4EnvMiss`, both from an empty cache. -/
theorem C4_bibtex_dblp_precedence_witness :
    (aggGetBibtex c4EnvNative "journals/nature/Smith24" true emptyCache).result
        = some (pyStrip " @article DBLP Smith24 ")
      ∧ (aggGetBibtex c4EnvMiss "10.1000/x" true emptyCache).result
        = (c4EnvMiss.paperFor "10.1000/x").map generateBibtex := by
  constructor
  · exact ((C4_bibtex_dblp_precedence c4EnvNative "journals/nature/Smith24"
      " @article DBLP Smith24 ").1 (by decide) rfl (by decide)).1
  · refine ((C4_bibtex_dblp_precedence c4EnvMiss "10.1000/x" "").2 ?_).1
    intro c0 h0
    have hl0 : cacheLookup c0 (bibtexKeyString "dblp:10.1000/x") = none :=
      cacheLookup_of_entries_nil h0 _
    have hin : pyIn "/" "10.1000/x" = true := by decide
    simp [dblpGetBibtex, cacheGet, hl0, optStrTruthy, c4EnvMiss, hin]
